import Mathlib

/-!
Verification of the Playbulb BLE adapter (src/playbulb-adapter.js).

The adapter is shallowly embedded as pure Lean functions over an explicit
`AdapterState`.  Calls into the noble radio stack (`startScanning`,
`stopScanning`, listener registration) and into the host device framework
(property-changed notifications, device added/removed) are modelled as
events appended to traces inside the state, so that "issues exactly one
command" becomes a statement about the appended trace.  The noble event
emitter is modelled by counting, per event stream, how many of the
adapter's bound handlers are currently registered (`noble.on` adds one,
`noble.removeListener` removes one).  JavaScript exceptions (member access
on `undefined`) are modelled with `Except`.
-/

namespace Playbulb

/-- A JavaScript runtime error surfaced by the embedded code.  The only one
the discovery handler can raise is a `TypeError` from calling `.toString`
on an absent `manufacturerData`. -/
inductive JSError where
  | typeError
deriving DecidableEq, Repr

/-- Equality of `Except` results is decidable when both components have
decidable equality (the library provides no such instance). -/
instance {ε α : Type} [DecidableEq ε] [DecidableEq α] :
    DecidableEq (Except ε α) := fun x y =>
  match x, y with
  | Except.ok a, Except.ok b =>
    if h : a = b then Decidable.isTrue (by rw [h])
    else Decidable.isFalse (by intro hh; injection hh; contradiction)
  | Except.error a, Except.error b =>
    if h : a = b then Decidable.isTrue (by rw [h])
    else Decidable.isFalse (by intro hh; injection hh; contradiction)
  | Except.ok _, Except.error _ =>
    Decidable.isFalse (by intro hh; exact Except.noConfusion hh)
  | Except.error _, Except.ok _ =>
    Decidable.isFalse (by intro hh; exact Except.noConfusion hh)

/-- Whether the first character list begins with the second one. -/
def listBegins : List Char → List Char → Bool
  | _, [] => true
  | [], _ :: _ => false
  | c :: cs, d :: ds => (c = d) && listBegins cs ds

/-- `String.prototype.startsWith(pat)`, evaluated over the character lists
of the strings (the library `String.startsWith` is defined by well-founded
recursion and does not reduce in the kernel). -/
def beginsWith (s pat : String) : Bool :=
  listBegins s.data pat.data

/-- Property values occurring in the adapter: booleans (`on`) and strings
(`color`). -/
inductive Value where
  | bool (b : Bool)
  | str (s : String)
deriving DecidableEq, Repr

/-- Commands the adapter issues to the noble radio stack
(`noble.startScanning()` / `noble.stopScanning()`). -/
inductive RadioCmd where
  | startScanning
  | stopScanning
deriving DecidableEq, Repr

/-- Notifications the adapter sends to the host device framework. -/
inductive HostEvent where
  | propertyChanged (deviceId propName : String) (value : Value)
  | deviceAdded (deviceId : String)
  | deviceRemoved (deviceId : String)
deriving DecidableEq, Repr

/-- How many of the adapter's bound handlers are registered on each of the
four noble event streams (`stateChange`, `scanStart`, `scanStop`,
`discover`).  `noble.on` appends a listener; `noble.removeListener`
removes at most one occurrence. -/
structure Listeners where
  stateChange : Nat
  scanStart : Nat
  scanStop : Nat
  discover : Nat
deriving DecidableEq, Repr

/-- The advertisement part of a noble peripheral record.  `localName` and
`manufacturerData` may be absent (`undefined` in JavaScript); bytes are
modelled as naturals below 256. -/
structure Advertisement where
  localName : Option String
  manufacturerData : Option (List Nat)
  serviceUuids : List String
deriving DecidableEq, Repr

/-- A discovered peripheral record as delivered by noble. -/
structure Peripheral where
  advertisement : Advertisement
  address : String
  connectable : Bool
  rssi : Int
deriving DecidableEq, Repr

/-- A property descriptor as written literally in `_handleDiscover` and
`addDevice` callers (`@type`, `label`, `name`, `type`, `value`). -/
structure PropDesc where
  atType : String
  label : String
  name : String
  type : String
  value : Value
deriving DecidableEq, Repr

/-- A device description: the constructor of `PlaybulbDevice` reads
`name`, `type`, `@type`, `description` and iterates `properties` in
insertion order, so properties are kept as an ordered association list. -/
structure DeviceDescription where
  name : String
  atType : List String
  type : String
  description : String
  properties : List (String × PropDesc)
deriving DecidableEq, Repr

/-- The state of a `PlaybulbProperty` after construction: its name and its
cached value. -/
structure PlaybulbProp where
  name : String
  value : Value
deriving DecidableEq, Repr

/-- The state of a `PlaybulbDevice` after construction. -/
structure Device where
  id : String
  name : String
  type : String
  atType : List String
  description : String
  properties : List (String × PlaybulbProp)
deriving DecidableEq, Repr

/-- The adapter state: the `scanEnabled` intent flag, the listener counts
on the noble emitter, the `this.devices` registry (an ordered map from
identifier to device), and the two output traces (radio commands issued,
host notifications sent). -/
structure AdapterState where
  scanEnabled : Bool
  listeners : Listeners
  devices : List (String × Device)
  cmds : List RadioCmd
  events : List HostEvent
deriving DecidableEq, Repr

/-! ## Hex encoding (`Buffer.prototype.toString("hex")`) -/

/-- One lowercase hex digit for a value below 16, as node produces. -/
def hexDigit (n : Nat) : Char :=
  if n < 10 then Char.ofNat (48 + n) else Char.ofNat (87 + n)

/-- Two lowercase hex digits for one byte. -/
def byteToHex (b : Nat) : String :=
  String.mk [hexDigit (b / 16 % 16), hexDigit (b % 16)]

/-- `Buffer.toString("hex")`: the concatenation of two lowercase hex
digits per byte. -/
def bufToHex (bs : List Nat) : String :=
  String.join (bs.map byteToHex)

/-! ## The peripheral filter (the guard of `_handleDiscover`, lines 335-338)

JavaScript evaluates the conjunction of the four advertisement checks
left to right with short-circuiting; an absent (`undefined`) `localName` is
falsy and short-circuits to the else branch, an empty string is likewise
falsy, but an absent `manufacturerData` is only reached after the name
checks pass and then throws a `TypeError` from the `.toString` call. -/

/-- The discovery guard of `_handleDiscover`, embedded with JavaScript
short-circuit and exception semantics. -/
def playbulbCheck (p : Peripheral) : Except JSError Bool :=
  match p.advertisement.localName with
  | none => Except.ok false
  | some name =>
    if name = "" then Except.ok false
    else if beginsWith name "PLAYBULB " then
      match p.advertisement.manufacturerData with
      | none => Except.error JSError.typeError
      | some md => Except.ok (beginsWith (bufToHex md) "4d49" && p.connectable)
    else Except.ok false

/-! ## Scan coordinator (`_startNobleScanning`, `_stopNobleScanning`,
`_startBLEDiscovery`, `_stopBLEDiscovery`, `_handleScanStart`,
`_handleScanStop`, `_handleStateChange`) -/

/-- `_startNobleScanning`: logs and issues `noble.startScanning()`. -/
def startNobleScanning (s : AdapterState) : AdapterState :=
  { s with cmds := s.cmds ++ [RadioCmd.startScanning] }

/-- `_stopNobleScanning`: logs and issues `noble.stopScanning()`. -/
def stopNobleScanning (s : AdapterState) : AdapterState :=
  { s with cmds := s.cmds ++ [RadioCmd.stopScanning] }

/-- Four `noble.on(...)` calls: one more bound handler on each stream. -/
def addAllListeners (l : Listeners) : Listeners :=
  { stateChange := l.stateChange + 1, scanStart := l.scanStart + 1,
    scanStop := l.scanStop + 1, discover := l.discover + 1 }

/-- Four `noble.removeListener(...)` calls: each removes at most one bound
handler from its stream (truncated subtraction models the no-op when none
is registered). -/
def removeAllListeners (l : Listeners) : Listeners :=
  { stateChange := l.stateChange - 1, scanStart := l.scanStart - 1,
    scanStop := l.scanStop - 1, discover := l.discover - 1 }

/-- `_startBLEDiscovery` (lines 283-294): sets `scanEnabled = true`,
subscribes the four handlers, and, when `noble._state` is already
`"poweredOn"`, immediately starts scanning.  `nobleState` is the radio
stack state read from `noble._state`. -/
def startBLEDiscovery (nobleState : String) (s : AdapterState) : AdapterState :=
  let s1 : AdapterState :=
    { s with scanEnabled := true, listeners := addAllListeners s.listeners }
  if nobleState = "poweredOn" then startNobleScanning s1 else s1

/-- `_stopBLEDiscovery` (lines 299-305): stops scanning and removes the
four handlers.  Note: the source does not touch `scanEnabled` here. -/
def stopBLEDiscovery (s : AdapterState) : AdapterState :=
  let s1 := stopNobleScanning s
  { s1 with listeners := removeAllListeners s1.listeners }

/-- `_handleScanStart` (lines 312-316): when scanning starts but
`scanEnabled` is false, immediately stop it. -/
def handleScanStart (s : AdapterState) : AdapterState :=
  if s.scanEnabled then s else stopNobleScanning s

/-- `_handleScanStop` (lines 317-321): when scanning stops but
`scanEnabled` is true, start it again. -/
def handleScanStop (s : AdapterState) : AdapterState :=
  if s.scanEnabled then startNobleScanning s else s

/-- `_handleStateChange` (lines 323-329): start scanning when the new
state is `"poweredOn"` and `scanEnabled` holds, otherwise stop. -/
def handleStateChange (state : String) (s : AdapterState) : AdapterState :=
  if state = "poweredOn" ∧ s.scanEnabled = true then startNobleScanning s
  else stopNobleScanning s

/-! ## Pairing controller (`startPairing`, `cancelPairing`) and the
constructor -/

/-- `startPairing` (lines 458-462): logs and delegates to
`_startBLEDiscovery`.  The timeout parameter is ignored by the source. -/
def startPairing (nobleState : String) (s : AdapterState) : AdapterState :=
  startBLEDiscovery nobleState s

/-- `cancelPairing` (lines 467-471): logs and delegates to
`_stopBLEDiscovery`. -/
def cancelPairing (s : AdapterState) : AdapterState :=
  stopBLEDiscovery s

/-- The adapter state right after `super(...)` in the constructor: no
listeners, no devices, empty traces, `scanEnabled` not yet assigned
(represented as `false`; the constructor assigns `false` before anything
reads it). -/
def initState : AdapterState :=
  { scanEnabled := false, listeners := ⟨0, 0, 0, 0⟩, devices := [],
    cmds := [], events := [] }

/-- The `PlaybulbAdapter` constructor (lines 263-278): binds the handlers,
sets `scanEnabled = false`, and immediately calls `_startBLEDiscovery`.
The `warning` listener only logs and is outside the four tracked
streams. -/
def adapterConstruct (nobleState : String) : AdapterState :=
  startBLEDiscovery nobleState initState

/-! ## Device and property construction (`PlaybulbProperty` and
`PlaybulbDevice` constructors, lines 219-224 and 247-261) -/

/-- The `PlaybulbProperty` constructor: stores the name, caches the
descriptor value with `setCachedValue(propertyDescription.value)`, and
fires one `notifyPropertyChanged` host notification.  `setCachedValue` and
`notifyPropertyChanged` are host base-class operations.  Modelled from the
spec: `setCachedValue` stores the value in the property and
`notifyPropertyChanged` sends one change notification for the property to
the host. -/
def mkPlaybulbProperty (deviceId propName : String) (desc : PropDesc) :
    PlaybulbProp × HostEvent :=
  ({ name := propName, value := desc.value },
   HostEvent.propertyChanged deviceId propName desc.value)

/-- The property loop of the `PlaybulbDevice` constructor: for each
descriptor entry in insertion order, construct a `PlaybulbProperty` (which
notifies the host once) and store it in `this.properties`. -/
def buildProperties (deviceId : String) :
    List (String × PropDesc) → List (String × PlaybulbProp) × List HostEvent
  | [] => ([], [])
  | pr :: rest =>
    let built := mkPlaybulbProperty deviceId pr.1 pr.2
    let tail := buildProperties deviceId rest
    ((pr.1, built.1) :: tail.1, built.2 :: tail.2)

/-- The `PlaybulbDevice` constructor: copies `name`, `type`, `@type` and
`description` from the description and builds the properties, collecting
the host notifications the property constructors fire. -/
def mkPlaybulbDevice (id : String) (dd : DeviceDescription) :
    Device × List HostEvent :=
  let built := buildProperties id dd.properties
  ({ id := id, name := dd.name, type := dd.type, atType := dd.atType,
     description := dd.description, properties := built.1 }, built.2)

/-! ## Device registry (host collaborators and the promise-wrapped
`addDevice` / `removeDevice`, lines 421-451) -/

/-- `this.devices[deviceId]` lookup. -/
def lookupDevice (devices : List (String × Device)) (id : String) :
    Option Device :=
  (devices.find? fun e => e.1 = id).map (fun e => e.2)

/-- JavaScript map assignment `this.devices[id] = d`: replace the entry
when the identifier is present, append it otherwise. -/
def setDevice (devices : List (String × Device)) (id : String) (d : Device) :
    List (String × Device) :=
  if (devices.find? fun e => e.1 = id).isSome then
    devices.map fun e => if e.1 = id then (id, d) else e
  else devices ++ [(id, d)]

/-- Modelled from the spec: `handleDeviceAdded` is the host framework
operation (not under src/) that registers the device in the adapter
registry under its identifier and notifies the host of the added
device. -/
def handleDeviceAdded (s : AdapterState) (d : Device) : AdapterState :=
  { s with devices := setDevice s.devices d.id d,
           events := s.events ++ [HostEvent.deviceAdded d.id] }

/-- Modelled from the spec: `handleDeviceRemoved` is the host framework
operation (not under src/) that removes the device from the adapter
registry by identifier and notifies the host of the removal. -/
def handleDeviceRemoved (s : AdapterState) (d : Device) : AdapterState :=
  { s with devices := s.devices.filter (fun e => e.1 ≠ d.id),
           events := s.events ++ [HostEvent.deviceRemoved d.id] }

/-- `addDevice` (lines 421-431): rejects when the identifier already
exists, otherwise constructs the device (host notified per property during
construction) and hands it to `handleDeviceAdded`.  The promise resolution
is the `Except` result. -/
def addDevice (s : AdapterState) (deviceId : String) (dd : DeviceDescription) :
    Except String Device × AdapterState :=
  if (s.devices.find? fun e => e.1 = deviceId).isSome then
    (Except.error ("Device: " ++ deviceId ++ " already exists."), s)
  else
    let built := mkPlaybulbDevice deviceId dd
    (Except.ok built.1,
     handleDeviceAdded { s with events := s.events ++ built.2 } built.1)

/-- `removeDevice` (lines 441-451): resolves with the device and removes
it when found, rejects with a not-found message otherwise. -/
def removeDevice (s : AdapterState) (deviceId : String) :
    Except String Device × AdapterState :=
  match lookupDevice s.devices deviceId with
  | some device => (Except.ok device, handleDeviceRemoved s device)
  | none => (Except.error ("Device: " ++ deviceId ++ " not found."), s)

/-- `removeThing` (lines 478-488): calls `removeDevice` and logs the
outcome; a rejection is caught and logged as a non-fatal error.  The
boolean records which branch was logged (`true` for the success log,
`false` for the caught error log); in both cases `removeThing` itself
returns normally. -/
def removeThing (s : AdapterState) (deviceId : String) : AdapterState × Bool :=
  match removeDevice s deviceId with
  | (Except.ok _, s1) => (s1, true)
  | (Except.error _, s1) => (s1, false)

/-! ## Discovery handler (`_handleDiscover`, lines 334-394) -/

/-- The device description literal built in `_handleDiscover`
(lines 365-386).  In the matching branch `localName` is necessarily
present (the guard passed), so `getD` never supplies its default. -/
def discoverDescription (p : Peripheral) : DeviceDescription :=
  { name := p.advertisement.localName.getD "",
    atType := ["Light"], type := "light",
    description := p.advertisement.localName.getD "" ++ " " ++ p.address,
    properties :=
      [("on", { atType := "OnOffProperty", label := "On/Off", name := "on",
                type := "boolean", value := Value.bool false }),
       ("color", { atType := "ColorProperty", label := "Color",
                   name := "color", type := "string",
                   value := Value.str "#FFFFFF" })] }

/-- `_handleDiscover`: evaluate the guard (which can throw, see
`playbulbCheck`); on a match, construct the device with identifier
`"playbulb-" + address` and hand it to `handleDeviceAdded`; otherwise only
log.  The transient diagnostic connect/enumerate/disconnect is
logging-only and leaves the modelled state untouched. -/
def handleDiscover (s : AdapterState) (p : Peripheral) :
    Except JSError AdapterState :=
  match playbulbCheck p with
  | Except.error e => Except.error e
  | Except.ok true =>
    let built := mkPlaybulbDevice ("playbulb-" ++ p.address)
      (discoverDescription p)
    Except.ok (handleDeviceAdded { s with events := s.events ++ built.2 }
      built.1)
  | Except.ok false => Except.ok s

/-- Host notifications that are device-added registrations. -/
def isDeviceAddedEvent : HostEvent → Bool
  | HostEvent.deviceAdded _ => true
  | _ => false

/-- The number of device registrations (`handleDeviceAdded` calls) in the
trace. -/
def addedCount (s : AdapterState) : Nat :=
  (s.events.filter isDeviceAddedEvent).length

/-- The number of start-scanning commands issued to the radio. -/
def startCmdCount (s : AdapterState) : Nat :=
  (s.cmds.filter fun c => c = RadioCmd.startScanning).length

/-! ## Concrete inputs for counterexamples and witnesses -/

/-- Scenario B peripheral: name `"PLAYBULB CANDLE"`, manufacturer data
`4d4901020304`, address `AA:BB:CC:DD:EE:FF`, connectable. -/
def pGood : Peripheral :=
  { advertisement :=
      { localName := some "PLAYBULB CANDLE",
        manufacturerData := some [0x4d, 0x49, 0x01, 0x02, 0x03, 0x04],
        serviceUuids := [] },
    address := "AA:BB:CC:DD:EE:FF", connectable := true, rssi := -50 }

/-- A peripheral whose name matches but whose manufacturer data is absent:
the guard dereferences `undefined` on it. -/
def pNoManufacturerData : Peripheral :=
  { advertisement :=
      { localName := some "PLAYBULB CANDLE", manufacturerData := none,
        serviceUuids := [] },
    address := "AA:BB:CC:DD:EE:FF", connectable := true, rssi := -50 }

/-- A concrete state with the scan intent set: discovery started while the
radio was still powered off, so no command has been issued yet. -/
def sIntentOn : AdapterState := startBLEDiscovery "poweredOff" initState

/-- A concrete state holding one registered device (scenario B identifier). -/
def sOneDevice : AdapterState :=
  (addDevice initState "playbulb-AA:BB:CC:DD:EE:FF" (discoverDescription pGood)).2

/-! ## Shared helper lemmas -/

/-- The property loop yields one stored property and one host notification
per descriptor entry, in descriptor order. -/
theorem buildProperties_eq (deviceId : String)
    (props : List (String × PropDesc)) :
    buildProperties deviceId props =
      (props.map fun pr => (pr.1, { name := pr.1, value := pr.2.value }),
       props.map fun pr => HostEvent.propertyChanged deviceId pr.1 pr.2.value) := by
  induction props with
  | nil => rfl
  | cons pr rest ih => simp [buildProperties, mkPlaybulbProperty, ih]

/-! ## Claim C1 -/

/-- Claim C1 as stated is false: after `stopBLEDiscovery` the intent flag
is not false.  Concretely, starting discovery on a powered-on radio and
then stopping it leaves `scanEnabled` equal to `true`, because
`_stopBLEDiscovery` never assigns `scanEnabled`. -/
theorem stopBLEDiscovery_intent_cex :
    (stopBLEDiscovery (startBLEDiscovery "poweredOn" initState)).scanEnabled
      = true := by decide

/-- Claim C1 (amended): `cancelPairing` delegates to `_stopBLEDiscovery`,
which issues exactly one stop-scanning command to the radio and
unsubscribes one bound handler from each of the four event streams, while
leaving `scanEnabled`, the device registry and the host trace unchanged —
in particular it does not set the scan intent to false. -/
theorem stopBLEDiscovery_spec (s : AdapterState) :
    cancelPairing s = stopBLEDiscovery s ∧
    (stopBLEDiscovery s).cmds = s.cmds ++ [RadioCmd.stopScanning] ∧
    (stopBLEDiscovery s).scanEnabled = s.scanEnabled ∧
    (stopBLEDiscovery s).listeners.stateChange = s.listeners.stateChange - 1 ∧
    (stopBLEDiscovery s).listeners.scanStart = s.listeners.scanStart - 1 ∧
    (stopBLEDiscovery s).listeners.scanStop = s.listeners.scanStop - 1 ∧
    (stopBLEDiscovery s).listeners.discover = s.listeners.discover - 1 ∧
    (stopBLEDiscovery s).devices = s.devices ∧
    (stopBLEDiscovery s).events = s.events :=
  ⟨rfl, rfl, rfl, rfl, rfl, rfl, rfl, rfl, rfl⟩

/-! ## Claim C2 -/

/-- Claim C2 as stated is false: the filter is not total.  On a record
whose local name matches but whose manufacturer data is absent, the guard
throws a `TypeError` instead of yielding false. -/
theorem playbulbCheck_throws_cex :
    playbulbCheck pNoManufacturerData = Except.error JSError.typeError ∧
    playbulbCheck pNoManufacturerData ≠ Except.ok false := by decide

/-- Claim C2 (amended): the filter accepts a record iff the local name is
present and begins with "PLAYBULB ", the manufacturer data is present and
its hex encoding begins with "4d49", and the record is connectable; and it
throws a `TypeError` exactly when the local name passes the name checks
while the manufacturer data is absent (so an absent manufacturer data does
not simply yield false). -/
theorem playbulbCheck_characterization (p : Peripheral) :
    (playbulbCheck p = Except.ok true ↔
      (∃ name, p.advertisement.localName = some name ∧
        beginsWith name "PLAYBULB " = true) ∧
      (∃ md, p.advertisement.manufacturerData = some md ∧
        beginsWith (bufToHex md) "4d49" = true) ∧
      p.connectable = true) ∧
    (playbulbCheck p = Except.error JSError.typeError ↔
      (∃ name, p.advertisement.localName = some name ∧
        beginsWith name "PLAYBULB " = true) ∧
      p.advertisement.manufacturerData = none) := by
  obtain ⟨⟨ln, md, su⟩, addr, conn, rssi⟩ := p
  cases ln with
  | none => simp [playbulbCheck]
  | some name =>
    by_cases hempty : name = ""
    · subst hempty
      have hbw : beginsWith "" "PLAYBULB " = false := by decide
      simp [playbulbCheck, hbw]
    · by_cases hsw : beginsWith name "PLAYBULB " = true
      · cases md with
        | none => simp [playbulbCheck, hempty, hsw]
        | some bytes =>
          simp [playbulbCheck, hempty, hsw, Bool.and_eq_true]
      · cases md with
        | none => simp [playbulbCheck, hempty, hsw]
        | some bytes => simp [playbulbCheck, hempty, hsw]

/-! ## Claim C3 -/

/-- Claim C3 as stated is false: the discovery handler does not
deduplicate by address.  Discovering the scenario B peripheral twice in
one session yields a registration call count of 2, not 1. -/
theorem handleDiscover_twice_cex :
    Except.bind (handleDiscover initState pGood)
        (fun s1 => Except.map addedCount (handleDiscover s1 pGood))
      = Except.ok 2 := by decide

/-- Claim C3 (amended): every discovery of a peripheral that passes the
filter registers a device with identifier `"playbulb-" + address`, caches
`on = false` and `color = "#FFFFFF"` (notifying the host once per
property), and calls `handleDeviceAdded` exactly once — per discovery
event, with no per-address deduplication, so the registration count grows
by one on each matching discovery. -/
theorem handleDiscover_registers (s : AdapterState) (p : Peripheral)
    (h : playbulbCheck p = Except.ok true) :
    ∃ s1, handleDiscover s p = Except.ok s1 ∧
      s1.events = s.events ++
        [HostEvent.propertyChanged ("playbulb-" ++ p.address) "on"
           (Value.bool false),
         HostEvent.propertyChanged ("playbulb-" ++ p.address) "color"
           (Value.str "#FFFFFF"),
         HostEvent.deviceAdded ("playbulb-" ++ p.address)] ∧
      addedCount s1 = addedCount s + 1 := by
  unfold handleDiscover
  rw [h]
  refine ⟨_, rfl, ?_, ?_⟩
  · simp [handleDeviceAdded, mkPlaybulbDevice, discoverDescription,
      buildProperties, mkPlaybulbProperty]
  · simp [handleDeviceAdded, mkPlaybulbDevice, discoverDescription,
      buildProperties, mkPlaybulbProperty, addedCount, List.filter_append,
      isDeviceAddedEvent]

/-- Concrete instantiation of the amended C3 theorem at the scenario B
peripheral. -/
theorem handleDiscover_registers_witness :
    ∃ s1, handleDiscover initState pGood = Except.ok s1 ∧
      s1.events = initState.events ++
        [HostEvent.propertyChanged ("playbulb-" ++ pGood.address) "on"
           (Value.bool false),
         HostEvent.propertyChanged ("playbulb-" ++ pGood.address) "color"
           (Value.str "#FFFFFF"),
         HostEvent.deviceAdded ("playbulb-" ++ pGood.address)] ∧
      addedCount s1 = addedCount initState + 1 :=
  handleDiscover_registers initState pGood (by decide)

/-! ## Claim C4 -/

/-- Claim C4 as stated is false: two `_startBLEDiscovery` calls in a row
on a powered-on radio register two bound handlers on the discover stream
and issue two start-scanning commands. -/
theorem startBLEDiscovery_twice_cex :
    (startBLEDiscovery "poweredOn"
        (startBLEDiscovery "poweredOn" initState)).listeners.discover = 2 ∧
    startCmdCount (startBLEDiscovery "poweredOn"
        (startBLEDiscovery "poweredOn" initState)) = 2 := by decide

/-- Claim C4 (amended): `_startBLEDiscovery` is not idempotent.  Each call
re-subscribes, so two calls in a row add two bound handlers to every one
of the four event streams and, when the radio state is `"poweredOn"`, two
start-scanning commands (none otherwise); only `scanEnabled` is idempotent
at `true`. -/
theorem startBLEDiscovery_twice_spec (s : AdapterState) (nobleState : String) :
    (startBLEDiscovery nobleState
        (startBLEDiscovery nobleState s)).scanEnabled = true ∧
    (startBLEDiscovery nobleState
        (startBLEDiscovery nobleState s)).listeners.stateChange
      = s.listeners.stateChange + 2 ∧
    (startBLEDiscovery nobleState
        (startBLEDiscovery nobleState s)).listeners.scanStart
      = s.listeners.scanStart + 2 ∧
    (startBLEDiscovery nobleState
        (startBLEDiscovery nobleState s)).listeners.scanStop
      = s.listeners.scanStop + 2 ∧
    (startBLEDiscovery nobleState
        (startBLEDiscovery nobleState s)).listeners.discover
      = s.listeners.discover + 2 ∧
    startCmdCount (startBLEDiscovery nobleState
        (startBLEDiscovery nobleState s))
      = startCmdCount s + (if nobleState = "poweredOn" then 2 else 0) := by
  by_cases hps : nobleState = "poweredOn" <;>
    simp [startBLEDiscovery, addAllListeners, startNobleScanning,
      startCmdCount, List.filter_append, hps]

/-! ## Claim C5 -/

/-- Claim C5 (confirmed): when the scan-start handler runs with the intent
flag false it issues exactly one stop-scanning command and changes nothing
else; with the intent flag true it does nothing at all. -/
theorem handleScanStart_spec (s : AdapterState) :
    (s.scanEnabled = false →
      (handleScanStart s).cmds = s.cmds ++ [RadioCmd.stopScanning] ∧
      (handleScanStart s).scanEnabled = s.scanEnabled ∧
      (handleScanStart s).listeners = s.listeners ∧
      (handleScanStart s).devices = s.devices ∧
      (handleScanStart s).events = s.events) ∧
    (s.scanEnabled = true → handleScanStart s = s) := by
  constructor
  · intro h
    simp [handleScanStart, h, stopNobleScanning]
  · intro h
    simp [handleScanStart, h]

/-- Concrete instantiation of the C5 theorem in the initial state, whose
intent flag is false. -/
theorem handleScanStart_spec_witness :
    (handleScanStart initState).cmds
      = initState.cmds ++ [RadioCmd.stopScanning] ∧
    (handleScanStart initState).scanEnabled = initState.scanEnabled ∧
    (handleScanStart initState).listeners = initState.listeners ∧
    (handleScanStart initState).devices = initState.devices ∧
    (handleScanStart initState).events = initState.events :=
  (handleScanStart_spec initState).1 (by decide)

/-! ## Claim C6 -/

/-- Claim C6 (confirmed): when the scan-stop handler runs with the intent
flag true it issues exactly one start-scanning command (so a scan-start
event followed by an externally forced scan-stop re-requests scanning);
with the intent flag false it does nothing at all. -/
theorem handleScanStop_spec (s : AdapterState) :
    (s.scanEnabled = true →
      (handleScanStop s).cmds = s.cmds ++ [RadioCmd.startScanning] ∧
      (handleScanStop s).scanEnabled = s.scanEnabled ∧
      (handleScanStop (handleScanStart s)).cmds
        = s.cmds ++ [RadioCmd.startScanning]) ∧
    (s.scanEnabled = false → handleScanStop s = s) := by
  constructor
  · intro h
    simp [handleScanStop, handleScanStart, h, startNobleScanning]
  · intro h
    simp [handleScanStop, h]

/-- Concrete instantiation of the C6 theorem in a state whose intent flag
is true. -/
theorem handleScanStop_spec_witness :
    (handleScanStop sIntentOn).cmds
      = sIntentOn.cmds ++ [RadioCmd.startScanning] ∧
    (handleScanStop sIntentOn).scanEnabled = sIntentOn.scanEnabled ∧
    (handleScanStop (handleScanStart sIntentOn)).cmds
      = sIntentOn.cmds ++ [RadioCmd.startScanning] :=
  (handleScanStop_spec sIntentOn).1 (by decide)

/-! ## Claim C7 -/

/-- Claim C7 (confirmed): the state-change handler issues exactly one
start-scanning command iff the new state is `"poweredOn"` and the intent
flag is true, and exactly one stop-scanning command in every other case;
nothing else in the state changes. -/
theorem handleStateChange_spec (st : String) (s : AdapterState) :
    (st = "poweredOn" ∧ s.scanEnabled = true →
      (handleStateChange st s).cmds = s.cmds ++ [RadioCmd.startScanning]) ∧
    (¬ (st = "poweredOn" ∧ s.scanEnabled = true) →
      (handleStateChange st s).cmds = s.cmds ++ [RadioCmd.stopScanning]) ∧
    (handleStateChange st s).scanEnabled = s.scanEnabled ∧
    (handleStateChange st s).listeners = s.listeners ∧
    (handleStateChange st s).devices = s.devices ∧
    (handleStateChange st s).events = s.events := by
  refine ⟨?_, ?_, ?_, ?_, ?_, ?_⟩
  · intro h
    unfold handleStateChange
    rw [if_pos h]
    rfl
  · intro h
    unfold handleStateChange
    rw [if_neg h]
    rfl
  all_goals
    unfold handleStateChange
    split <;> rfl

/-- Concrete instantiation of the C7 theorem: a single
`stateChange("poweredOn")` with the intent flag set yields exactly one
start-scanning command. -/
theorem handleStateChange_spec_witness :
    (handleStateChange "poweredOn" sIntentOn).cmds
      = sIntentOn.cmds ++ [RadioCmd.startScanning] :=
  (handleStateChange_spec "poweredOn" sIntentOn).1 ⟨rfl, by decide⟩

/-! ## Claim C8 -/

/-- Claim C8 as stated is false: adapter construction itself starts
discovery, so a freshly constructed adapter already has the intent flag
set to true (whatever the radio state), and `cancelPairing` leaves it
true. -/
theorem scanEnabled_initial_cex :
    (adapterConstruct "unknown").scanEnabled = true ∧
    (cancelPairing (adapterConstruct "unknown")).scanEnabled = true := by
  decide

/-- Claim C8 (amended): `scanEnabled` starts as false but the constructor
immediately starts discovery, leaving it true after construction for every
radio state; `startPairing` sets it to true; `cancelPairing`, the three
scan-coordination handlers and `removeThing` never modify it — in
particular nothing ever sets it back to false. -/
theorem scanEnabled_mutation (s : AdapterState)
    (nobleState st deviceId : String) :
    initState.scanEnabled = false ∧
    (adapterConstruct nobleState).scanEnabled = true ∧
    (startPairing nobleState s).scanEnabled = true ∧
    (cancelPairing s).scanEnabled = s.scanEnabled ∧
    (handleScanStart s).scanEnabled = s.scanEnabled ∧
    (handleScanStop s).scanEnabled = s.scanEnabled ∧
    (handleStateChange st s).scanEnabled = s.scanEnabled ∧
    (removeThing s deviceId).1.scanEnabled = s.scanEnabled := by
  refine ⟨rfl, ?_, ?_, rfl, ?_, ?_, ?_, ?_⟩
  · unfold adapterConstruct startBLEDiscovery
    split <;> rfl
  · unfold startPairing startBLEDiscovery
    split <;> rfl
  · unfold handleScanStart
    split <;> rfl
  · unfold handleScanStop
    split <;> rfl
  · unfold handleStateChange
    split <;> rfl
  · unfold removeThing removeDevice
    cases lookupDevice s.devices deviceId <;> rfl

/-! ## Claim C9 -/

/-- Claim C9 (confirmed): removing a thing whose identifier is not in the
registry is rejected by `removeDevice`, caught and logged as a non-fatal
error by `removeThing`, and leaves the whole adapter state — in particular
the device list — unchanged; `removeThing` itself always returns. -/
theorem removeThing_unknown (s : AdapterState) (deviceId : String)
    (h : lookupDevice s.devices deviceId = none) :
    removeThing s deviceId = (s, false) := by
  unfold removeThing removeDevice
  rw [h]

/-- Concrete instantiation of the C9 theorem: removing an unknown
identifier from a registry holding one device changes nothing and reports
the logged failure. -/
theorem removeThing_unknown_witness :
    removeThing sOneDevice "playbulb-unknown" = (sOneDevice, false) :=
  removeThing_unknown sOneDevice "playbulb-unknown" (by decide)

/-! ## Claim C10 -/

/-- Claim C10 (confirmed): device construction caches each property value
from the descriptor (for the discovery descriptor: `on = false`,
`color = "#FFFFFF"`) and fires exactly one property-changed notification
per property, and in `addDevice` (as in `_handleDiscover`) all those
notifications land in the trace before the device-added hand-off. -/
theorem device_construction_notifies (id : String) (dd : DeviceDescription)
    (s : AdapterState)
    (h : (s.devices.find? fun e => e.1 = id).isSome = false) :
    (mkPlaybulbDevice id dd).1.properties
      = dd.properties.map (fun pr => (pr.1, { name := pr.1, value := pr.2.value })) ∧
    (mkPlaybulbDevice id dd).2
      = dd.properties.map (fun pr => HostEvent.propertyChanged id pr.1 pr.2.value) ∧
    (addDevice s id dd).2.events
      = s.events ++ (mkPlaybulbDevice id dd).2 ++ [HostEvent.deviceAdded id] := by
  refine ⟨?_, ?_, ?_⟩
  · simp [mkPlaybulbDevice, buildProperties_eq]
  · simp [mkPlaybulbDevice, buildProperties_eq]
  · simp [addDevice, h, handleDeviceAdded, mkPlaybulbDevice]

/-- Concrete instantiation of the C10 theorem at the discovery descriptor
for the scenario B peripheral. -/
theorem device_construction_notifies_witness :
    (mkPlaybulbDevice "playbulb-AA:BB:CC:DD:EE:FF"
        (discoverDescription pGood)).1.properties
      = (discoverDescription pGood).properties.map
          (fun pr => (pr.1, { name := pr.1, value := pr.2.value })) ∧
    (mkPlaybulbDevice "playbulb-AA:BB:CC:DD:EE:FF"
        (discoverDescription pGood)).2
      = (discoverDescription pGood).properties.map
          (fun pr => HostEvent.propertyChanged "playbulb-AA:BB:CC:DD:EE:FF"
            pr.1 pr.2.value) ∧
    (addDevice initState "playbulb-AA:BB:CC:DD:EE:FF"
        (discoverDescription pGood)).2.events
      = initState.events ++ (mkPlaybulbDevice "playbulb-AA:BB:CC:DD:EE:FF"
          (discoverDescription pGood)).2
        ++ [HostEvent.deviceAdded "playbulb-AA:BB:CC:DD:EE:FF"] :=
  device_construction_notifies "playbulb-AA:BB:CC:DD:EE:FF"
    (discoverDescription pGood) initState (by decide)

end Playbulb
